import Mathlib

/-!
Shallow embedding of the grid snake simulation in
`src/apps/web/src/ui/snake.py.py`.

The Python module keeps a `SnakeGame` object with three fields
(`snake`, a list of integer pixel pairs with the head stored LAST;
`direction`, one of the four arrow strings; `apple`, an optional cell)
and a `main` loop that, once per frame: processes pending arrow-key
events, clears `apple`, calls `move_snake` (breaking out of the loop
when it returns `False`), re-randomizes `apple` over the whole grid,
and applies the score / growth branch.

Randomness (`random.choice` over the full list of grid cells) is
embedded by passing the chosen index explicitly: `randomChoice c`
returns the cell the source would pick when the random index is
`c % 1200`.  Python's floor division `//` is embedded as `Int.fdiv`.
-/

set_option maxRecDepth 100000

/-- Pixel width of the window (source constant `WIDTH = 800`). -/
def WIDTH : Int := 800

/-- Pixel height of the window (source constant `HEIGHT = 600`). -/
def HEIGHT : Int := 600

/-- A position, in pixels; grid cells are the multiples of 20. -/
abbrev Cell := Int × Int

/-- The four heading strings of the source. -/
inductive Direction where
  | UP
  | DOWN
  | LEFT
  | RIGHT
deriving DecidableEq, Repr

/-- The spec's notion of the direct opposite of a heading (used to
state the reversal claims; not a function of the source). -/
def opposite : Direction → Direction
  | .UP => .DOWN
  | .DOWN => .UP
  | .LEFT => .RIGHT
  | .RIGHT => .LEFT

/-- The mutable state of the Python `SnakeGame` object: `snake` is the
body tail-first with the head as the LAST element (`self.snake[-1]`),
`direction` the committed heading, `apple` the optional food cell. -/
structure SnakeGame where
  snake : List Cell
  direction : Direction
  apple : Option Cell
deriving DecidableEq, Repr

/-- `SnakeGame.__init__`: body `[(200,200),(220,200),(240,200)]`,
heading `RIGHT`, no apple. -/
def initGame : SnakeGame :=
  { snake := [(200, 200), (220, 200), (240, 200)],
    direction := .RIGHT, apple := none }

/-- The new head cell: the source shifts the current head by 20 pixels
in the committed direction. -/
def newHeadOf (head : Cell) (d : Direction) : Cell :=
  match d with
  | .UP => (head.1, head.2 - 20)
  | .DOWN => (head.1, head.2 + 20)
  | .LEFT => (head.1 - 20, head.2)
  | .RIGHT => (head.1 + 20, head.2)

/-- The list `[(x//20*20, y//20*20) for x in range(0, WIDTH, 20) for y
in range(0, HEIGHT, 20)]` that both apple-spawning sites pass to
`random.choice`: every grid cell of the window, x-major.  Note the
body is NOT excluded. -/
def appleCandidates : List Cell :=
  (List.range 40).flatMap
    (fun i => (List.range 30).map (fun j => ((20 * i : Int), (20 * j : Int))))

/-- `random.choice(appleCandidates)` with the random draw made
explicit: index `c` picks element `c % 1200` of the list. -/
def randomChoice (c : Nat) : Cell :=
  appleCandidates.getD (c % appleCandidates.length) (0, 0)

/-- `SnakeGame.move_snake`, with the random index for the in-method
apple spawn passed explicitly.  Faithful to the source order: read the
head (`self.snake[-1]`), compute the shifted new head, APPEND it (the
tail is never removed), spawn an apple if `apple` is `None`, redirect
the heading when the new head left the window (the head cell itself is
unchanged), and finally return `False` iff the new head equals a cell
of `self.snake[:-1]` (= the entire pre-move body). -/
def move_snake (g : SnakeGame) (c : Nat) : SnakeGame × Bool :=
  let head := g.snake.getLastD (0, 0)
  let new_head := newHeadOf head g.direction
  let snake1 := g.snake ++ [new_head]
  let apple1 : Option Cell :=
    match g.apple with
    | none => some (randomChoice c)
    | some a => some a
  let dir1 : Direction :=
    if new_head.1 < 0 ∨ new_head.1 > WIDTH - 20 then
      (if new_head.2 = 200 then .UP else .DOWN)
    else if new_head.2 < 0 ∨ new_head.2 > HEIGHT - 20 then
      (if new_head.1 = 200 then .LEFT else .RIGHT)
    else g.direction
  let alive : Bool := decide (new_head ∉ snake1.dropLast)
  ({ snake := snake1, direction := dir1, apple := apple1 }, alive)

/-- `SnakeGame.check_collision`: true when the head is out of bounds
at the reserved coordinate 200 on the other axis (the "gate"), or when
the head equals a cell of `self.snake[:-1]`. -/
def check_collision (g : SnakeGame) : Bool :=
  let head := g.snake.getLastD (0, 0)
  let gate : Bool :=
    if head.1 < 0 ∨ head.1 > WIDTH - 20 then decide (head.2 = 200)
    else if head.2 < 0 ∨ head.2 > HEIGHT - 20 then decide (head.1 = 200)
    else false
  gate || decide (head ∈ g.snake.dropLast)

/-- `SnakeGame.check_apple_collision`: `False` when `apple` is `None`,
else the offset comparison `(apple - 20) // 20 == head // 20` on both
coordinates (Python `//` is floor division, `Int.fdiv`). -/
def check_apple_collision (g : SnakeGame) : Bool :=
  match g.apple with
  | none => false
  | some a =>
      let head := g.snake.getLastD (0, 0)
      decide ((a.1 - 20).fdiv 20 = head.1.fdiv 20 ∧
              (a.2 - 20).fdiv 20 = head.2.fdiv 20)

/-- `SnakeGame.get_score`: the body length. -/
def get_score (g : SnakeGame) : Nat :=
  g.snake.length

/-- One arrow-key `KEYDOWN` event in `main`: the request is applied
unless it is the direct opposite of the heading committed at the time
of the event. -/
def setDirection (d : Direction) (req : Direction) : Direction :=
  match req with
  | .UP => if d ≠ .DOWN then .UP else d
  | .DOWN => if d ≠ .UP then .DOWN else d
  | .LEFT => if d ≠ .RIGHT then .LEFT else d
  | .RIGHT => if d ≠ .LEFT then .RIGHT else d

/-- The guard `not ((apple[0]-20)//20 == (200-20)//20 and
(apple[1]-20)//20 == (200-20)//20)` in `main`'s consumption branch,
without the `not`.  (`apple` is always assigned at this point; the
`none` case is unreachable.) -/
def apple_at_200 (g : SnakeGame) : Bool :=
  match g.apple with
  | none => false
  | some a =>
      decide ((a.1 - 20).fdiv 20 = ((200 : Int) - 20).fdiv 20 ∧
              (a.2 - 20).fdiv 20 = ((200 : Int) - 20).fdiv 20)

/-- One iteration of the `while True` loop of `main`, given the arrow
events delivered this frame (in order) and the two random indices (the
spawn inside `move_snake`, and the unconditional re-randomization
right after it).  Returns the new object state, whether the loop
continues (`move_snake`'s return), and the frame's displayed score.
Rendering and clock calls are omitted; on break the score is not
computed (returned as 0 here). -/
def tickStep (g : SnakeGame) (requests : List Direction) (c1 c2 : Nat) :
    SnakeGame × Bool × Nat :=
  let d := List.foldl setDirection g.direction requests
  let g0 : SnakeGame := { snake := g.snake, direction := d, apple := none }
  let mr := move_snake g0 c1
  let g1 := mr.1
  if mr.2 then
    let g2 : SnakeGame := { g1 with apple := some (randomChoice c2) }
    let score := get_score g2
    if check_apple_collision g2 && !apple_at_200 g2 then
      ({ g2 with snake := g2.snake ++ [(220, 200)] }, true, score + 1)
    else if !check_collision g2 then
      (g2, true, if score < g2.snake.length then score - 1 else score)
    else
      (g2, true, score)
  else
    (g1, false, 0)

/-- The session state machine: the object state plus a RUNNING flag.
While running, a clock tick runs one loop iteration and the session
dies exactly when `move_snake` returns `False` (the `break`); after
the break no further iteration runs, so a dead session is inert. -/
def sessionStep (s : SnakeGame × Bool) (requests : List Direction)
    (c1 c2 : Nat) : SnakeGame × Bool :=
  if s.2 then
    let r := tickStep s.1 requests c1 c2
    (r.1, r.2.1)
  else s

example : (move_snake initGame 0).1.snake =
    [(200, 200), (220, 200), (240, 200), (260, 200)] := by decide

example : randomChoice 310 = (200, 200) := by decide

example : randomChoice 431 = (280, 220) := by decide

/-! ## Helper lemmas -/

/-- `move_snake` returns `False` exactly when the new head equals a
cell of the entire pre-move body: after the append, `snake[:-1]` is
the whole previous `snake`, tail-most segment included. -/
theorem move_snake_alive_iff (g : SnakeGame) (c : Nat) :
    (move_snake g c).2 = false ↔
      newHeadOf (g.snake.getLastD (0, 0)) g.direction ∈ g.snake := by
  simp [move_snake]

/-- The continue/break flag of a loop iteration is exactly the return
value of `move_snake` (the score/growth branch never breaks). -/
theorem tickStep_alive (g : SnakeGame) (requests : List Direction) (c1 c2 : Nat) :
    (tickStep g requests c1 c2).2.1 =
      (move_snake { snake := g.snake,
                    direction := List.foldl setDirection g.direction requests,
                    apple := none } c1).2 := by
  unfold tickStep
  cases h : (move_snake { snake := g.snake, direction := List.foldl setDirection g.direction requests, apple := none } c1).2
  · simp [h]
  · simp only [h, if_true]
    split
    · rfl
    · split <;> rfl

/-- Every cell `random.choice` can return is an element of the full
grid list the source builds. -/
theorem randomChoice_mem (c : Nat) : randomChoice c ∈ appleCandidates := by
  have hlen : appleCandidates.length = 1200 := by decide
  have h : c % appleCandidates.length < appleCandidates.length := by
    rw [hlen]
    exact Nat.mod_lt _ (by decide)
  unfold randomChoice
  rw [List.getD_eq_getElem?_getD, List.getElem?_eq_getElem h]
  simp

/-- The source's offset test `(a - 20) // 20 == b // 20`, on
coordinates that are multiples of 20, holds exactly when `a = b + 20`. -/
theorem fdiv_offset_eq (a b : Int) (ha : (20 : Int) ∣ a) (hb : (20 : Int) ∣ b) :
    ((a - 20).fdiv 20 = b.fdiv 20) ↔ a = b + 20 := by
  obtain ⟨m, rfl⟩ := ha
  obtain ⟨k, rfl⟩ := hb
  have h1 : (20 * m - 20 : Int) = 20 * (m - 1) := by ring
  rw [h1, Int.mul_fdiv_cancel_left _ (by decide), Int.mul_fdiv_cancel_left _ (by decide)]
  omega

/-! ## Claims -/

/-- C1: the spec's one-tick scenario run on the code.  From the
initial session state (body `[(200,200),(220,200),(240,200)]`, heading
RIGHT), with no turn requests and both random draws landing the food
at `(0,0)` (so no food interaction at the head), one loop iteration
yields the body `[(200,200),(220,200),(240,200),(260,200)]` of length
4 with `alive = true`: the new head is appended but the tail is never
removed, so the claimed body `[(220,200),(240,200),(260,200)]` of
unchanged length 3 is not what the code produces. -/
theorem c1_one_tick_run :
    tickStep initGame [] 0 0 =
      ({ snake := [(200, 200), (220, 200), (240, 200), (260, 200)],
         direction := .RIGHT, apple := some (0, 0) }, true, 4) ∧
    (tickStep initGame [] 0 0).1.snake.length = 4 := by decide

/-- C2: a tick on which the head does not overlap the food.  Starting
from body `[(200,200),(220,200),(240,200)]` heading RIGHT with food at
`(500,500)`, one loop iteration moves the head to `(260,200)` (no
overlap with the food), yet the tail-most segment `(200,200)` is still
present (length grows 3 → 4, nothing is trimmed) and the food does not
persist: `main` clears it and re-randomizes it (here to `(0,0)`) on
every iteration. -/
theorem c2_no_trim_no_persist :
    tickStep { snake := [(200, 200), (220, 200), (240, 200)],
               direction := .RIGHT, apple := some (500, 500) } [] 0 0 =
      ({ snake := [(200, 200), (220, 200), (240, 200), (260, 200)],
         direction := .RIGHT, apple := some (0, 0) }, true, 4) := by decide

/-- C5: a tick on which the food is consumed.  From body
`[(200,200),(220,200),(240,200)]` heading RIGHT, with the frame's food
draw landing at `(280,220)` (which the offset test matches against the
new head `(260,200)`), the body length goes 3 → 5 (not +1: the move
already appended a head and the consumption branch appends the fixed
segment `(220,200)`, a duplicate of an existing body cell), the
displayed score is 5, and no new food is produced during the tick —
the consumed apple `(280,220)` is still the stored food afterwards. -/
theorem c5_consumption_run :
    tickStep { snake := [(200, 200), (220, 200), (240, 200)],
               direction := .RIGHT, apple := none } [] 0 431 =
      ({ snake := [(200, 200), (220, 200), (240, 200), (260, 200), (220, 200)],
         direction := .RIGHT, apple := some (280, 220) }, true, 5) := by decide

/-- C3 (counterexample): a length-4 body whose head moves into the
cell of its own tail-most segment.  The claim says this is legal (the
check excludes the tail-most segment), but `move_snake` returns
`False` — it checks the new head against the entire pre-move body,
and indeed the new head is NOT in the body with the tail-most segment
dropped. -/
theorem c3_tail_cell_counterexample :
    (move_snake { snake := [(200, 200), (220, 200), (220, 220), (200, 220)],
                  direction := .UP, apple := none } 0).2 = false ∧
    newHeadOf (([(200, 200), (220, 200), (220, 220), (200, 220)] :
        List Cell).getLastD (0, 0)) .UP
      ∉ List.drop 1 ([(200, 200), (220, 200), (220, 220), (200, 220)] : List Cell) := by
  decide

/-- C3 (amended): the per-tick collision test reports a collision
exactly when the new head equals some cell of the ENTIRE pre-move
body, the tail-most segment included — no segment is removed during
the tick, so moving into the cell of one's own tail ends the game. -/
theorem c3_collision_against_full_body (g : SnakeGame) (c : Nat) :
    (move_snake g c).2 = false ↔
      newHeadOf (g.snake.getLastD (0, 0)) g.direction ∈ g.snake :=
  move_snake_alive_iff g c

/-- C9: with committed heading RIGHT, a single LEFT request is a
no-op: the reversal guard `game.direction != 'RIGHT'` fails, so the
committed heading stays RIGHT. -/
theorem c9_reversal_rejected :
    setDirection Direction.RIGHT Direction.LEFT = Direction.RIGHT := by decide

/-- C8 (counterexample): two requests delivered between consecutive
ticks, `UP` then `LEFT`, starting from committed heading RIGHT:
each request is only checked against the heading at the moment it is
processed, so `UP` is accepted and then `LEFT` is accepted, committing
LEFT — the direct opposite of the heading RIGHT used on the preceding
tick. -/
theorem c8_double_request_counterexample :
    List.foldl setDirection Direction.RIGHT [Direction.UP, Direction.LEFT] =
      opposite Direction.RIGHT := by decide

/-- C8 (amended): each individual request is rejected exactly when it
is the direct opposite of the heading committed at the time the event
is processed; a sequence of two or more requests within one inter-tick
window can therefore still commit the opposite of the preceding
tick's heading. -/
theorem c8_single_request_rule (d r : Direction) :
    setDirection d r = if r = opposite d then d else r := by
  cases d <;> cases r <;> rfl

/-- C4 (counterexample): the spawn site draws from the full grid list,
so the draw can land on the snake.  With random index 310 the spawn in
`move_snake` places the apple at `(200,200)`, a cell of the current
body (it is in the post-move body and already in the initial body). -/
theorem c4_spawn_on_body_counterexample :
    (move_snake initGame 310).1.apple = some (200, 200) ∧
    ((200 : Int), (200 : Int)) ∈ (move_snake initGame 310).1.snake ∧
    ((200 : Int), (200 : Int)) ∈ initGame.snake := by decide

/-- C4 (amended): whenever the food is spawned, the chosen cell is
drawn from the list of ALL grid cells of the window (every multiple of
20 in `[0,800) × [0,600)`), with no exclusion of the body — so the
spawned cell may coincide with a body cell. -/
theorem c4_spawn_from_full_grid (g : SnakeGame) (c : Nat)
    (h : g.apple = none) :
    (move_snake g c).1.apple = some (randomChoice c) ∧
      randomChoice c ∈ appleCandidates := by
  constructor
  · simp [move_snake, h]
  · exact randomChoice_mem c

/-- Witness for C4 (amended) at the initial state with draw 0. -/
theorem c4_spawn_from_full_grid_witness :
    (move_snake initGame 0).1.apple = some (randomChoice 0) ∧
      randomChoice 0 ∈ appleCandidates :=
  c4_spawn_from_full_grid initGame 0 rfl

/-- C6 (counterexample): body `[(740,200),(760,200),(780,200)]`
heading RIGHT moves its head to `(800,200)`, outside the bounds on the
x-axis.  The heading is forced onto the vertical axis (`UP`) and the
game is not ended, but the resulting head cell is `(800,200)` itself —
NOT a valid in-bounds cell (`800 > WIDTH - 20`). -/
theorem c6_out_of_bounds_counterexample :
    (move_snake { snake := [(740, 200), (760, 200), (780, 200)],
                  direction := .RIGHT, apple := none } 0).1.snake.getLastD (0, 0)
        = (800, 200) ∧
    (move_snake { snake := [(740, 200), (760, 200), (780, 200)],
                  direction := .RIGHT, apple := none } 0).1.direction = .UP ∧
    (move_snake { snake := [(740, 200), (760, 200), (780, 200)],
                  direction := .RIGHT, apple := none } 0).2 = true ∧
    ¬((800 : Int) ≤ WIDTH - 20) := by decide

/-- C6 (amended): when the new head `nh` falls outside the bounds on
the x-axis, the tick does not by itself end the game (the alive flag
still depends only on the self-collision test), the heading is forced
onto the vertical axis (`UP` or `DOWN`); when `nh` is inside on x but
outside on y, the heading is forced onto the horizontal axis — but in
both cases the head cell is left unchanged at `nh`, which remains out
of bounds; no in-bounds head cell is produced. -/
theorem c6_boundary_redirect (g : SnakeGame) (c : Nat) (nh : Cell)
    (hnh : nh = newHeadOf (g.snake.getLastD (0, 0)) g.direction) :
    (nh.1 < 0 ∨ nh.1 > WIDTH - 20 →
      ((move_snake g c).1.direction = .UP ∨ (move_snake g c).1.direction = .DOWN) ∧
      (move_snake g c).1.snake.getLastD (0, 0) = nh ∧
      ((move_snake g c).2 = true ↔ nh ∉ g.snake)) ∧
    ((¬(nh.1 < 0 ∨ nh.1 > WIDTH - 20)) → (nh.2 < 0 ∨ nh.2 > HEIGHT - 20) →
      ((move_snake g c).1.direction = .LEFT ∨ (move_snake g c).1.direction = .RIGHT) ∧
      (move_snake g c).1.snake.getLastD (0, 0) = nh ∧
      ((move_snake g c).2 = true ↔ nh ∉ g.snake)) := by
  have hdir : (move_snake g c).1.direction =
      (if nh.1 < 0 ∨ nh.1 > WIDTH - 20 then
        (if nh.2 = 200 then Direction.UP else Direction.DOWN)
      else if nh.2 < 0 ∨ nh.2 > HEIGHT - 20 then
        (if nh.1 = 200 then Direction.LEFT else Direction.RIGHT)
      else g.direction) := by
    subst hnh
    rfl
  have hsnake : (move_snake g c).1.snake = g.snake ++ [nh] := by
    subst hnh
    rfl
  have hlast : (move_snake g c).1.snake.getLastD (0, 0) = nh := by
    rw [hsnake, List.getLastD_concat]
  have halive : (move_snake g c).2 = true ↔ nh ∉ g.snake := by
    subst hnh
    simp [move_snake]
  constructor
  · intro hx
    refine ⟨?_, hlast, halive⟩
    rw [hdir, if_pos hx]
    split
    · exact Or.inl rfl
    · exact Or.inr rfl
  · intro hx hy
    refine ⟨?_, hlast, halive⟩
    rw [hdir, if_neg hx, if_pos hy]
    split
    · exact Or.inl rfl
    · exact Or.inr rfl

/-- Witness for C6 (amended): the x-axis case at a concrete state. -/
theorem c6_boundary_redirect_witness :
    ((move_snake { snake := [(740, 200), (760, 200), (780, 200)],
                   direction := .RIGHT, apple := none } 0).1.direction = .UP ∨
     (move_snake { snake := [(740, 200), (760, 200), (780, 200)],
                   direction := .RIGHT, apple := none } 0).1.direction = .DOWN) ∧
    (move_snake { snake := [(740, 200), (760, 200), (780, 200)],
                  direction := .RIGHT, apple := none } 0).1.snake.getLastD (0, 0)
        = (800, 200) ∧
    ((move_snake { snake := [(740, 200), (760, 200), (780, 200)],
                   direction := .RIGHT, apple := none } 0).2 = true ↔
      ((800 : Int), (200 : Int)) ∉
        ([(740, 200), (760, 200), (780, 200)] : List Cell)) :=
  (c6_boundary_redirect { snake := [(740, 200), (760, 200), (780, 200)], direction := .RIGHT, apple := none } 0 (800, 200) (by decide)).1 (by decide)

/-- C7 (counterexample): a running session whose tick leaves the head
at `(800,200)` — out of bounds on x with the reserved coordinate 200
on y, i.e. the boundary gate condition of `check_collision` — yet the
session is still RUNNING after that tick, and still RUNNING after one
more tick taken from the gate-satisfying state: the gate never fires
the transition, because `main` only breaks on `move_snake`'s return. -/
theorem c7_gate_counterexample :
    (sessionStep ({ snake := [(740, 200), (760, 200), (780, 200)], direction := .RIGHT, apple := none }, true) [] 0 0).2 = true ∧
    ((sessionStep ({ snake := [(740, 200), (760, 200), (780, 200)], direction := .RIGHT, apple := none }, true) [] 0 0).1.snake.getLastD (0, 0)).1 > WIDTH - 20 ∧
    ((sessionStep ({ snake := [(740, 200), (760, 200), (780, 200)], direction := .RIGHT, apple := none }, true) [] 0 0).1.snake.getLastD (0, 0)).2 = 200 ∧
    check_collision (sessionStep ({ snake := [(740, 200), (760, 200), (780, 200)], direction := .RIGHT, apple := none }, true) [] 0 0).1 = true ∧
    (sessionStep (sessionStep ({ snake := [(740, 200), (760, 200), (780, 200)], direction := .RIGHT, apple := none }, true) [] 0 0) [] 0 0).2 = true := by
  decide

/-- C7 (amended): the session leaves RUNNING exactly when the tick's
self-collision test fires, i.e. when the new head (computed with the
heading committed after this frame's requests) equals a cell of the
pre-move body; the boundary gate condition plays no part in the
transition.  And GAME_OVER is terminal: a dead session is unchanged by
any further step. -/
theorem c7_game_over_iff_self_collision (g : SnakeGame)
    (requests : List Direction) (c1 c2 : Nat) :
    ((sessionStep (g, true) requests c1 c2).2 = false ↔
      newHeadOf (g.snake.getLastD (0, 0))
        (List.foldl setDirection g.direction requests) ∈ g.snake) ∧
    (∀ g' : SnakeGame, sessionStep (g', false) requests c1 c2 = (g', false)) := by
  constructor
  · rw [show (sessionStep (g, true) requests c1 c2).2 =
        (tickStep g requests c1 c2).2.1 from rfl]
    rw [tickStep_alive]
    exact move_snake_alive_iff _ _
  · intro g'
    rfl

/-- C10: `check_apple_collision` is total over the optional food: it
returns `False` when the food is absent, and on grid-aligned states
(all coordinates multiples of 20, as every reachable head and apple
is) it returns `True` exactly when the food equals the head shifted by
`(+20, +20)` — the source's floor-divided offset comparison. -/
theorem c10_apple_test_total (g : SnakeGame) :
    (g.apple = none → check_apple_collision g = false) ∧
    (∀ a : Cell, g.apple = some a →
      (20 : Int) ∣ a.1 → (20 : Int) ∣ a.2 →
      (20 : Int) ∣ (g.snake.getLastD (0, 0)).1 →
      (20 : Int) ∣ (g.snake.getLastD (0, 0)).2 →
      (check_apple_collision g = true ↔
        a = ((g.snake.getLastD (0, 0)).1 + 20, (g.snake.getLastD (0, 0)).2 + 20))) := by
  obtain ⟨s, d, ap⟩ := g
  constructor
  · intro h
    subst h
    rfl
  · intro a ha h1 h2 h3 h4
    cases ha
    simp only [check_apple_collision, decide_eq_true_eq]
    rw [fdiv_offset_eq _ _ h1 h3, fdiv_offset_eq _ _ h2 h4]
    constructor
    · intro e
      exact Prod.ext e.1 e.2
    · intro e
      subst e
      exact ⟨rfl, rfl⟩

/-- Witness for C10: both conjuncts at concrete states — absent food
gives `False`; food at `(220,220)` with head `(200,200)` gives
`True`. -/
theorem c10_apple_test_total_witness :
    check_apple_collision { snake := [(0, 0)], direction := .UP, apple := none } = false ∧
    check_apple_collision { snake := [(200, 200)], direction := .RIGHT, apple := some (220, 220) } = true :=
  ⟨(c10_apple_test_total { snake := [(0, 0)], direction := .UP, apple := none }).1 rfl,
   ((c10_apple_test_total { snake := [(200, 200)], direction := .RIGHT, apple := some (220, 220) }).2
      (220, 220) rfl (by decide) (by decide) (by decide) (by decide)).mpr (by decide)⟩
